import Mathlib

/-!
Shallow embedding of the `#[cached]` attribute of `cuviper/cached`
(`src/cached_proc_macro/src/lib.rs`).

The attribute synthesizes a memoizing wrapper around a function.  At
setup time it resolves a declarative configuration (`MacroArgs` in the
source) into a cache identifier, a cache-key derivation, a cache backend
and a store policy; `panic!` calls in that resolution are embedded as
`Except SetupError`.  The synthesized wrapper (the `quote!` block at the
end of `cached`) is embedded as the pure, instrumented function
`cached_call`, which records the cache state after the invocation and
how many backend lookups, backend stores and executions of the
underlying computation the invocation performed.
-/

namespace Cached

/-- Models Rust `.clone()` as used by the generated code on cache keys
and cached values: a clone is a fresh value equal to the original, so in
a value-level embedding it is the identity.  Kept as a named function so
that the embedding applies it exactly where the source calls
`.clone()`. -/
def clone {V : Type} (v : V) : V := v

/-- Modelled from the spec: the cache backend capability
`get(key) -> Option<Value>` (the backends `UnboundCache`, `SizedCache`,
`TimedCache` live outside this repository; the spec only requires that
`get` returns the value most recently `set` for the key, if any).  The
backend state is embedded as an association list searched front to
back. -/
def cache_get {K V : Type} [DecidableEq K] : List (K × V) → K → Option V
  | [], _ => none
  | (k, v) :: rest, q => if k = q then some v else cache_get rest q

/-- Modelled from the spec: the cache backend capability
`set(key, value) -> ()`.  Prepending makes the new entry shadow any
older entry for the same key (last-writer-wins on lookup). -/
def cache_set {K V : Type} (c : List (K × V)) (k : K) (v : V) : List (K × V) :=
  (k, v) :: c

/-- The configuration record accepted by the attribute
(struct `MacroArgs` in the source); every field defaults to
absent/false. -/
structure CachedArgs where
  name : Option String
  unbound : Bool
  size : Option Nat
  time : Option Nat
  key : Option String
  convert : Option String
  result : Bool
  option : Bool
deriving DecidableEq

/-- The setup-time failures of the attribute.  Each corresponds to one
`panic!` in the source; the names follow the spec's error taxonomy. -/
inductive SetupError where
  /-- `panic!("methods (functions taking 'self') are not supported")` -/
  | MethodsNotSupported
  /-- `panic!("key and convert arguments must be used together or not at all")` -/
  | IncompleteKeySpec
  /-- `panic!("cache types (unbound, size, or time) are mutually exclusive")` -/
  | ConflictingBackendSpec
  /-- `panic!("the result and option attributes are mutually exclusive")` -/
  | ConflictingResultPolicy
deriving DecidableEq

/-- One argument of the wrapped function's signature: either a receiver
(`self`) or a typed pattern (`syn::FnArg` in the source), carrying its
type and its name/pattern. -/
inductive FnArg (T P : Type) where
  | Receiver
  | Typed (ty : T) (pat : P)
deriving DecidableEq

/-- The `input_tys` extraction: map each argument to its type,
panicking on a receiver (`FnArg::Receiver(_) => panic!(...)`). -/
def input_tys {T P : Type} : List (FnArg T P) → Except SetupError (List T)
  | [] => .ok []
  | .Receiver :: _ => .error .MethodsNotSupported
  | .Typed ty _ :: rest => (input_tys rest).map (ty :: ·)

/-- The `input_names` extraction: map each argument to its
name/pattern, panicking on a receiver. -/
def input_names {T P : Type} : List (FnArg T P) → Except SetupError (List P)
  | [] => .ok []
  | .Receiver :: _ => .error .MethodsNotSupported
  | .Typed _ pat :: rest => (input_names rest).map (pat :: ·)

/-- The cache identifier resolution (`let cache_ident = match args.name`):
a given `name` is used verbatim; otherwise the wrapped function's
identifier is uppercased. -/
def cache_ident (name : Option String) (fn_ident : String) : String :=
  match name with
  | some n => n
  | none => fn_ident.toUpper

/-- The default key derivation (`(#(#input_names.clone()),*)`): the
positional tuple of clones of all input arguments, embedded as the list
of clones of the argument values (one list position per tuple
position). -/
def key_convert_block {V : Type} (inputs : List V) : List V :=
  inputs.map clone

/-- The resolved cache backend (`cache_ty`/`cache_create` in the
source): one of the three eviction disciplines. -/
inductive CacheTy where
  | UnboundCache
  | SizedCache (size : Nat)
  | TimedCache (seconds : Nat)
deriving DecidableEq

/-- The backend resolution (`match (&args.unbound, &args.size, &args.time)`):
the four accepted shapes, everything else panics. -/
def cache_create (args : CachedArgs) : Except SetupError CacheTy :=
  match args.unbound, args.size, args.time with
  | true, none, none => .ok .UnboundCache
  | false, some s, none => .ok (.SizedCache s)
  | false, none, some t => .ok (.TimedCache t)
  | false, none, none => .ok .UnboundCache
  | _, _, _ => .error .ConflictingBackendSpec

/-- The `All` store policy (`(false, false) => cache.cache_set(key, result.clone())`):
always store a clone of the output. -/
def set_cache_block_all {V : Type} (result : V) : Option V :=
  some (clone result)

/-- The `OkOnly` store policy (`(true, false)` arm of `set_cache_block`):
`match result.clone() { Ok(result) => cache.cache_set(key, Ok(result)), _ => {} }` —
store the success payload wrapped back in `Ok`, store nothing on the
error variant. -/
def set_cache_block_result {E A : Type} (result : Except E A) : Option (Except E A) :=
  match clone result with
  | .ok r => some (.ok r)
  | _ => none

/-- The `SomeOnly` store policy (`(false, true)` arm of `set_cache_block`):
store the present payload wrapped back in `Some`, store nothing on
`None`. -/
def set_cache_block_option {A : Type} (result : Option A) : Option (Option A) :=
  match clone result with
  | some r => some (some r)
  | none => none

/-- The store-policy resolution (`match (&args.result, &args.option)`):
both flags together panic. -/
inductive ResultPolicy where
  | All
  | OkOnly
  | SomeOnly
deriving DecidableEq

/-- Selects the store policy from the `result`/`option` flags, as the
`set_cache_block` match in the source does. -/
def set_cache_block_select (args : CachedArgs) : Except SetupError ResultPolicy :=
  match args.result, args.option with
  | false, false => .ok .All
  | true, false => .ok .OkOnly
  | false, true => .ok .SomeOnly
  | true, true => .error .ConflictingResultPolicy

/-- The observable outcome of one invocation of the synthesized
wrapper: the value returned (or the propagated failure of the
underlying computation), the backend state afterwards, and how many
backend lookups, backend stores and executions of the underlying
computation happened. -/
structure CallTrace (K V E : Type) where
  outcome : Except E V
  cache : List (K × V)
  lookups : Nat
  stores : Nat
  execs : Nat

/-- The synthesized wrapper body (the `quote!` block of `cached`),
instrumented.  `f` is the resolved store policy block, `cache` the
backend state at entry, `key` the already-derived cache key, and
`inner` the outcome the underlying computation would produce if
executed (`Except.error` embeds a propagating failure/panic of the
computation).  On a hit the wrapper returns a clone of the stored value
without executing the computation and without storing; on a miss it
executes the computation unlocked, then stores what the policy block
yields and returns the full computed output. -/
def cached_call {K V E : Type} [DecidableEq K] (f : V → Option V)
    (cache : List (K × V)) (key : K) (inner : Except E V) : CallTrace K V E :=
  match cache_get cache key with
  | some result =>
      { outcome := .ok (clone result), cache := cache,
        lookups := 1, stores := 0, execs := 0 }
  | none =>
      match inner with
      | .error e =>
          { outcome := .error e, cache := cache,
            lookups := 1, stores := 0, execs := 1 }
      | .ok result =>
          match f result with
          | some v =>
              { outcome := .ok result, cache := cache_set cache key v,
                lookups := 1, stores := 1, execs := 1 }
          | none =>
              { outcome := .ok result, cache := cache,
                lookups := 1, stores := 0, execs := 1 }

/-! ## Helper lemmas -/

/-- Cloning every element of a list leaves it unchanged. -/
theorem key_convert_block_eq {V : Type} (xs : List V) : key_convert_block xs = xs :=
  List.map_id xs

/-- Evaluation of the wrapper on a hit. -/
theorem cached_call_hit {K V E : Type} [DecidableEq K]
    (f : V → Option V) (cache : List (K × V)) (key : K) (inner : Except E V)
    (v : V) (h : cache_get cache key = some v) :
    cached_call f cache key inner =
      { outcome := Except.ok (clone v), cache := cache,
        lookups := 1, stores := 0, execs := 0 } := by
  unfold cached_call
  rw [h]

/-- Evaluation of the wrapper on a miss whose computation completes
normally: the store policy decides between storing and not storing. -/
theorem cached_call_miss_ok {K V E : Type} [DecidableEq K]
    (f : V → Option V) (cache : List (K × V)) (key : K) (r : V)
    (h : cache_get cache key = none) :
    cached_call (E := E) f cache key (Except.ok r) =
      match f r with
      | some v =>
          { outcome := Except.ok r, cache := cache_set cache key v,
            lookups := 1, stores := 1, execs := 1 }
      | none =>
          { outcome := Except.ok r, cache := cache,
            lookups := 1, stores := 0, execs := 1 } := by
  unfold cached_call
  rw [h]

/-- Evaluation of the wrapper on a miss whose computation fails. -/
theorem cached_call_miss_err {K V E : Type} [DecidableEq K]
    (f : V → Option V) (cache : List (K × V)) (key : K) (e : E)
    (h : cache_get cache key = none) :
    cached_call f cache key (Except.error e) =
      { outcome := Except.error e, cache := cache,
        lookups := 1, stores := 0, execs := 1 } := by
  unfold cached_call
  rw [h]

/-! ## Claims -/

/-- C1: for every invocation whose derived cache key is present in the
cache, the wrapper returns a clone of the stored value, the underlying
computation is not executed, and no store is performed (the cache is
unchanged). -/
theorem hit_returns_clone_no_exec_no_store {K V E : Type} [DecidableEq K]
    (f : V → Option V) (cache : List (K × V)) (key : K) (inner : Except E V)
    (v : V) (h : cache_get cache key = some v) :
    cached_call f cache key inner =
      { outcome := Except.ok (clone v), cache := cache,
        lookups := 1, stores := 0, execs := 0 } := by
  unfold cached_call
  rw [h]

/-- Witness for C1 at a concrete hit. -/
theorem hit_returns_clone_no_exec_no_store_witness :
    cache_get [(1, 10)] 1 = some 10 ∧
    cached_call (K := Nat) (V := Nat) (E := Unit) set_cache_block_all
        [(1, 10)] 1 (Except.ok 99) =
      { outcome := Except.ok (clone 10), cache := [(1, 10)],
        lookups := 1, stores := 0, execs := 0 } :=
  ⟨by decide,
   hit_returns_clone_no_exec_no_store set_cache_block_all [(1, 10)] 1
     (Except.ok 99) 10 (by decide)⟩

/-- C2: every invocation performs exactly one cache lookup, at most one
cache store, and executes the underlying computation at most once. -/
theorem one_lookup_at_most_one_store_one_exec {K V E : Type} [DecidableEq K]
    (f : V → Option V) (cache : List (K × V)) (key : K) (inner : Except E V) :
    (cached_call f cache key inner).lookups = 1 ∧
    (cached_call f cache key inner).stores ≤ 1 ∧
    (cached_call f cache key inner).execs ≤ 1 := by
  cases hc : cache_get cache key with
  | some v =>
      rw [cached_call_hit f cache key inner v hc]
      exact ⟨rfl, by simp, by simp⟩
  | none =>
      cases inner with
      | error e =>
          rw [cached_call_miss_err f cache key e hc]
          exact ⟨rfl, by simp, by simp⟩
      | ok r =>
          rw [cached_call_miss_ok f cache key r hc]
          cases f r with
          | some v => exact ⟨rfl, by simp, by simp⟩
          | none => exact ⟨rfl, by simp, by simp⟩

/-- C3: under the `OkOnly` policy, a miss whose computation completes
with the success variant stores that success value (payload wrapped
back in `Ok`) under the derived key; a miss whose computation completes
with the error variant stores nothing, so a subsequent invocation with
the same key executes the computation again. -/
theorem okonly_stores_ok_skips_err {K E A P : Type} [DecidableEq K]
    (cache : List (K × Except E A)) (key : K) (out out2 : Except E A)
    (h : cache_get cache key = none) :
    ((cached_call (E := P) set_cache_block_result cache key (Except.ok out)).stores
        = if out.isOk then 1 else 0) ∧
    (out.isOk = true →
       (cached_call (E := P) set_cache_block_result cache key (Except.ok out)).cache
         = cache_set cache key out) ∧
    (out.isOk = false →
       (cached_call (E := P) set_cache_block_result cache key (Except.ok out)).cache
         = cache ∧
       (cached_call (E := P) set_cache_block_result
           (cached_call (E := P) set_cache_block_result cache key
             (Except.ok out)).cache key (Except.ok out2)).execs = 1) := by
  cases out with
  | ok a =>
      rw [cached_call_miss_ok set_cache_block_result cache key (Except.ok a) h]
      exact ⟨rfl, fun _ => rfl, fun hko => Bool.noConfusion hko⟩
  | error e =>
      rw [cached_call_miss_ok set_cache_block_result cache key (Except.error e) h]
      refine ⟨rfl, fun hko => Bool.noConfusion hko, fun _ => ⟨rfl, ?_⟩⟩
      show (cached_call set_cache_block_result cache key (Except.ok out2)).execs = 1
      rw [cached_call_miss_ok set_cache_block_result cache key out2 h]
      cases set_cache_block_result out2 <;> rfl

/-- Witness for C3 at a concrete miss with a success-variant output. -/
theorem okonly_stores_ok_skips_err_witness :
    cache_get ([] : List (Nat × Except String Nat)) 0 = none ∧
    (((cached_call (E := Unit) set_cache_block_result
          ([] : List (Nat × Except String Nat)) 0
          (Except.ok (Except.ok 7))).stores
        = if (Except.ok 7 : Except String Nat).isOk then 1 else 0) ∧
     ((Except.ok 7 : Except String Nat).isOk = true →
        (cached_call (E := Unit) set_cache_block_result
            ([] : List (Nat × Except String Nat)) 0
            (Except.ok (Except.ok 7))).cache
          = cache_set [] 0 (Except.ok 7)) ∧
     ((Except.ok 7 : Except String Nat).isOk = false →
        (cached_call (E := Unit) set_cache_block_result
            ([] : List (Nat × Except String Nat)) 0
            (Except.ok (Except.ok 7))).cache = [] ∧
        (cached_call (E := Unit) set_cache_block_result
            (cached_call (E := Unit) set_cache_block_result
              ([] : List (Nat × Except String Nat)) 0
              (Except.ok (Except.ok 7))).cache 0
            (Except.ok (Except.error "boom"))).execs = 1)) :=
  ⟨rfl,
   okonly_stores_ok_skips_err ([] : List (Nat × Except String Nat)) 0
     (Except.ok 7) (Except.error "boom") rfl⟩

/-- C4: a miss returns the full computed output, even when the store
policy declines to store it (`f` is arbitrary, so this covers a
declining filter). -/
theorem miss_returns_full_output {K V E : Type} [DecidableEq K]
    (f : V → Option V) (cache : List (K × V)) (key : K) (r : V)
    (h : cache_get cache key = none) :
    (cached_call (E := E) f cache key (Except.ok r)).outcome = Except.ok r := by
  rw [cached_call_miss_ok f cache key r h]
  cases f r <;> rfl

/-- Witness for C4 with a filter that declines to store. -/
theorem miss_returns_full_output_witness :
    cache_get ([] : List (Nat × Nat)) 0 = none ∧
    (cached_call (E := Unit) (fun _ => none) [] 0 (Except.ok 5)).outcome
      = Except.ok 5 :=
  ⟨by decide, miss_returns_full_output (fun _ => none) [] 0 5 (by decide)⟩

/-- C8: if the underlying computation fails on a miss, the failure
propagates to the caller unchanged and the cache is left untouched —
no store occurs. -/
theorem failure_propagates_no_store {K V E : Type} [DecidableEq K]
    (f : V → Option V) (cache : List (K × V)) (key : K) (e : E)
    (h : cache_get cache key = none) :
    (cached_call f cache key (Except.error e)).outcome = Except.error e ∧
    (cached_call f cache key (Except.error e)).cache = cache ∧
    (cached_call f cache key (Except.error e)).stores = 0 := by
  rw [cached_call_miss_err f cache key e h]
  exact ⟨rfl, rfl, rfl⟩

/-- Witness for C8 at a concrete failing computation. -/
theorem failure_propagates_no_store_witness :
    cache_get ([(3, 4)] : List (Nat × Nat)) 0 = none ∧
    ((cached_call set_cache_block_all [(3, 4)] 0
        (Except.error "panicked")).outcome = Except.error "panicked" ∧
     (cached_call set_cache_block_all [(3, 4)] 0
        (Except.error "panicked")).cache = [(3, 4)] ∧
     (cached_call set_cache_block_all [(3, 4)] 0
        (Except.error "panicked")).stores = 0) :=
  ⟨by decide, failure_propagates_no_store set_cache_block_all [(3, 4)] 0
     "panicked" (by decide)⟩

/-- C5: the default key strategy produces the positional tuple of
clones of the inputs, and two input tuples that differ in any position
(including in arity) produce different keys. -/
theorem default_key_positional_and_injective {V : Type} (xs ys : List V)
    (h : xs ≠ ys) :
    key_convert_block xs = List.map clone xs ∧
    key_convert_block xs ≠ key_convert_block ys := by
  refine ⟨rfl, ?_⟩
  rw [key_convert_block_eq, key_convert_block_eq]
  exact h

/-- Witness for C5 on two tuples with the same components in different
order. -/
theorem default_key_positional_and_injective_witness :
    ([1, 2] : List Nat) ≠ [2, 1] ∧
    (key_convert_block ([1, 2] : List Nat) = List.map clone [1, 2] ∧
     key_convert_block ([1, 2] : List Nat) ≠ key_convert_block [2, 1]) :=
  ⟨by decide, default_key_positional_and_injective [1, 2] [2, 1] (by decide)⟩

/-- C6: a configuration giving none of `unbound`, `size`, `time`
resolves successfully to the `UnboundCache` backend. -/
theorem no_backend_option_defaults_unbounded (args : CachedArgs)
    (h1 : args.unbound = false) (h2 : args.size = none) (h3 : args.time = none) :
    cache_create args = Except.ok CacheTy.UnboundCache := by
  unfold cache_create
  rw [h1, h2, h3]

/-- Witness for C6 at the all-default configuration. -/
theorem no_backend_option_defaults_unbounded_witness :
    (⟨none, false, none, none, none, none, false, false⟩ : CachedArgs).unbound
        = false ∧
    (⟨none, false, none, none, none, none, false, false⟩ : CachedArgs).size
        = none ∧
    (⟨none, false, none, none, none, none, false, false⟩ : CachedArgs).time
        = none ∧
    cache_create ⟨none, false, none, none, none, none, false, false⟩
      = Except.ok CacheTy.UnboundCache :=
  ⟨rfl, rfl, rfl,
   no_backend_option_defaults_unbounded
     ⟨none, false, none, none, none, none, false, false⟩ rfl rfl rfl⟩

/-- C7: a configuration giving more than one of `unbound`, `size`,
`time` makes backend resolution — a setup-time step, before any
invocation exists — fail with `ConflictingBackendSpec`. -/
theorem conflicting_backend_options_fail (args : CachedArgs)
    (h : ((args.unbound && args.size.isSome) || (args.unbound && args.time.isSome)
          || (args.size.isSome && args.time.isSome)) = true) :
    cache_create args = Except.error SetupError.ConflictingBackendSpec := by
  rcases args with ⟨n, u, s, t, k, c, r, o⟩
  cases u <;> cases s <;> cases t <;> simp_all [cache_create]

/-- Witness for C7 with both `unbound` and `size` set. -/
theorem conflicting_backend_options_fail_witness :
    ((((⟨none, true, some 2, none, none, none, false, false⟩ : CachedArgs).unbound
        && (⟨none, true, some 2, none, none, none, false, false⟩ : CachedArgs).size.isSome)
      || ((⟨none, true, some 2, none, none, none, false, false⟩ : CachedArgs).unbound
        && (⟨none, true, some 2, none, none, none, false, false⟩ : CachedArgs).time.isSome)
      || ((⟨none, true, some 2, none, none, none, false, false⟩ : CachedArgs).size.isSome
        && (⟨none, true, some 2, none, none, none, false, false⟩ : CachedArgs).time.isSome))
      = true) ∧
    cache_create ⟨none, true, some 2, none, none, none, false, false⟩
      = Except.error SetupError.ConflictingBackendSpec :=
  ⟨by decide,
   conflicting_backend_options_fail
     ⟨none, true, some 2, none, none, none, false, false⟩ (by decide)⟩

/-- C9: a function taking a receiver (`self`) is rejected at setup
time: extracting the argument types fails with `MethodsNotSupported`,
so no wrapper is generated. -/
theorem receiver_rejected_at_setup {T P : Type} (inputs : List (FnArg T P))
    (h : FnArg.Receiver ∈ inputs) :
    input_tys inputs = Except.error SetupError.MethodsNotSupported := by
  induction inputs with
  | nil => cases h
  | cons a rest ih =>
      cases a with
      | Receiver => rfl
      | Typed ty pat =>
          have hr : FnArg.Receiver ∈ rest := by
            cases h with
            | tail _ hm => exact hm
          show (input_tys rest).map (ty :: ·)
            = Except.error SetupError.MethodsNotSupported
          rw [ih hr]
          rfl

/-- Witness for C9 on a signature whose second argument is a
receiver. -/
theorem receiver_rejected_at_setup_witness :
    FnArg.Receiver ∈ ([FnArg.Typed 0 1, FnArg.Receiver] : List (FnArg Nat Nat)) ∧
    input_tys ([FnArg.Typed 0 1, FnArg.Receiver] : List (FnArg Nat Nat))
      = Except.error SetupError.MethodsNotSupported :=
  ⟨by decide,
   receiver_rejected_at_setup [FnArg.Typed 0 1, FnArg.Receiver] (by decide)⟩

/-- C10: with no `name` option the cache identifier is the wrapped
function's identifier uppercased; with a `name` it is that name
verbatim. -/
theorem cache_ident_default_upper_or_verbatim :
    (∀ fn : String, cache_ident none fn = fn.toUpper) ∧
    (∀ (n fn : String), cache_ident (some n) fn = n) :=
  ⟨fun _ => rfl, fun _ _ => rfl⟩

end Cached
